import Mathlib

/-!
Verification development for `env.py` of the `invisprints/utils` repository.

The program builds a diagnostic report: an ordered list of entries
`(label, optional value)`, collected from external collaborators
(the ML framework, `psutil`, `platform`, subprocesses, environment
variables), and renders it as an aligned fenced text block.

Shallow embedding conventions:
* In `get_size` the only inexact operation of the source is the first
  `bytes /= 1024`: an int-to-float true division, correctly rounded to
  53 significant bits (round-half-even), modelled by `roundSig53`.
  Before it the loop compares exact integers; after it every further
  division by 1024 is an exact exponent shift of the double and every
  comparison against 1024 is exact, so the running float is the exact
  dyadic rational `roundSig53 bytes / 1024 ^ k`, carried as a
  numerator/denominator pair. `f"{x:.2f}"` rounds the exact value of
  the double being formatted (half-even), modelled by `rnd2`.
* Opaque float values handed over by collaborators (`psutil`
  percentages) are never computed with, only interpolated into strings;
  they are modelled by their decimal rendering.
* Fallible steps return `Except PyError _`; an `Except.error` models an
  exception escaping `show_env` (e.g. an uncaught `ValueError`).
* Each `print(...)` call of the rendering phase is one element of a
  `List String` (trailing newlines added by `print` itself are elided).
* External collaborators (subprocess results, `torch`, `psutil`,
  `platform`, `os.environ`) are fields of an `ExtEnv` record; a
  `none`-valued subprocess field models the call raising an exception.
-/

set_option maxRecDepth 8000

/-- Model of `get_env` (env.py lines 14-17): `os.environ.get(name, '')` is
`(environ name).getD ""`; Python's truthiness test `if len(res)` is
`res.length ≠ 0`. -/
def get_env (environ : String → Option String) (name : String) : String :=
  let res := (environ name).getD ""
  if res.length ≠ 0 then res else "Unknown"

/-- The decimal digit character for `d % 10`. -/
def digitChar (d : Nat) : Char :=
  Char.ofNat (48 + d % 10)

/-- Big-endian decimal digits of `n`, with explicit fuel (any fuel `≥`
the number of digits, in particular `n + 1`, yields all digits). -/
def natToDecAux : Nat → Nat → List Char
  | 0, _ => []
  | fuel + 1, n => if n = 0 then [] else natToDecAux fuel (n / 10) ++ [digitChar (n % 10)]

/-- Decimal rendering of a natural number (models Python's rendering of a
non-negative integer). -/
def natToDec (n : Nat) : String :=
  if n = 0 then "0" else String.mk (natToDecAux (n + 1) n)

/-- Python rendering of an integer. -/
def intRepr (i : Int) : String :=
  if i < 0 then "-" ++ natToDec i.natAbs else natToDec i.toNat

/-- Round `n / m` (`m > 0`) to the nearest integer, ties to even: the
rounding mode of both IEEE-754 double conversion and CPython's float
formatting. -/
def roundHalfEvenDiv (n m : Nat) : Nat :=
  if 2 * (n % m) < m then n / m
  else if m < 2 * (n % m) then n / m + 1
  else if (n / m) % 2 = 0 then n / m else n / m + 1

/-- Bit length with explicit fuel (any fuel `≥` the bit count, in
particular `n + 1`, yields the bit length of `n`; zero has length 0). -/
def bitLenAux : Nat → Nat → Nat
  | 0, _ => 0
  | fuel + 1, n => if n = 0 then 0 else bitLenAux fuel (n / 2) + 1

/-- The bit length of `n`: the least `L` with `n < 2 ^ L`. -/
def bitLen (n : Nat) : Nat :=
  bitLenAux (n + 1) n

/-- The integer nearest to `n` among those with at most 53 significant
bits, ties to even: `roundSig53 n / 1024` is the IEEE-754 double
produced by CPython's int-by-int true division `n / 1024` (dividing by
the power of two only shifts the exponent, so rounding the quotient to
53 significant bits is rounding `n` itself). Faithful throughout the
range where CPython's conversion does not overflow; no theorem below
evaluates `get_size` beyond it. -/
def roundSig53 (n : Nat) : Nat :=
  if n < 2 ^ 53 then n
  else roundHalfEvenDiv n (2 ^ (bitLen n - 53)) * 2 ^ (bitLen n - 53)

/-- Round-half-even of `100 * (n / d)` to an integer: the rounding
performed by Python's `f"{x:.2f}"` on the exact value `n / d` (`d > 0`)
of the number being formatted — an integer (`d = 1`) or the exact
dyadic value of a double. -/
def rnd2 (n d : Nat) : Nat :=
  roundHalfEvenDiv (100 * n) d

/-- Exactly two decimal digits for `m < 100` (the fractional part of a
two-decimal rendering). -/
def pad2 (m : Nat) : String :=
  String.mk [digitChar (m / 10), digitChar (m % 10)]

/-- Model of Python `f"{x:.2f}"` on the exact non-negative value
`n / d` of the formatted number (an int, or a double — a dyadic
rational — reached by the `get_size` loop). -/
def fmt2 (n d : Nat) : String :=
  let c := rnd2 n d
  natToDec (c / 100) ++ "." ++ pad2 (c % 100)

/-- The unit sequence of `get_size` (env.py line 27). -/
def sizeUnits : List String := ["", "K", "M", "G", "T", "P"]

/-- The iterations of the `get_size` loop (env.py lines 27-30) after
the first division, on the exact dyadic value `n / d` of the running
double: on each unit, either the value is below the factor 1024
(`n / d < 1024`, i.e. `n < 1024 * d` — float-versus-int comparison is
exact) and a formatted string is returned, or the value is divided by
1024 (`d := d * 1024` — an exact exponent shift of the double) and the
loop continues; falling off the end of the unit list models the Python
function returning `None`. The `suffix` parameter of the source keeps
its default value `"B"` throughout. -/
def get_size_go (n d : Nat) : List String → Option String
  | [] => none
  | unit :: rest =>
    if n < 1024 * d then some (fmt2 n d ++ unit ++ "B") else get_size_go n (d * 1024) rest

/-- Model of `get_size` (env.py lines 19-30) on a byte count. The
first loop iteration compares the original integer exactly and, when it
returns, formats the integer exactly; otherwise `bytes /= factor`
converts to a float — the one rounding step, `roundSig53` — and the
remaining five iterations run on the exact value of that double. -/
def get_size (bytes : Nat) : Option String :=
  if bytes < 1024 then some (fmt2 bytes 1 ++ "" ++ "B")
  else get_size_go (roundSig53 bytes) 1024 ["K", "M", "G", "T", "P"]

/-- The exception kinds that can escape `show_env` in the source. -/
inductive PyError
  | valueError
  | indexError
  | moduleNotFound
  | calledProcessError
deriving DecidableEq

/-- A value stored in a report entry. The source stores heterogeneous
Python values: strings, integers (e.g. device counts and `subprocess.call`
return codes), and opaque floats from `psutil` (modelled by their decimal
rendering, as the program only ever interpolates them into text). -/
inductive EVal
  | s (v : String)
  | n (v : Int)
  | f (r : String)
deriving DecidableEq

/-- Rendering of an entry value, as `f": {e[1]}"` would produce. -/
def evalStr : EVal → String
  | .s v => v
  | .n v => intRepr v
  | .f r => r

/-- One report entry: `rep.append([label, value])`; `value = none` models
Python `None` (a header or decorative line). -/
structure Entry where
  label : String
  value : Option EVal
deriving DecidableEq

/-- Results of all external collaborator queries made by `show_env`,
gathered into one record. A `none`-valued subprocess field models the
call raising an exception. -/
structure ExtEnv where
  /-- Result of `platform.python_version()`. -/
  pythonVersion : String
  /-- Value of `torch.__version__`. -/
  torchVersion : String
  /-- Value of `pip.__version__`; `none` models `import pip` raising `ImportError`. -/
  pipVersion : Option String
  /-- Result of `subprocess.run(["nvidia-smi"])`: return code and decoded stdout;
  `none` models the call raising (caught by the bare `except`) -/
  smiRun : Option (Int × String)
  /-- the `nvidia-smi --query-gpu=memory.total ...` run; `none` models
  the call raising (caught, with a message printed) -/
  smiQuery : Option (Int × String)
  /-- Result of `torch.cuda.is_available()`. -/
  cudaAvailable : Bool
  /-- rendering of `torch.version.cuda` -/
  cudaVersion : String
  /-- Result of `torch.backends.cudnn.version()`. -/
  cudnnVersion : Int
  /-- Value of `torch.backends.cudnn.enabled`. -/
  cudnnEnabled : Bool
  /-- Result of `torch.cuda.device_count()`. -/
  torchGpuCnt : Nat
  /-- Result of `torch.cuda.get_device_name(i)`. -/
  deviceName : Nat → String
  /-- Result of `platform.machine()`. -/
  machine : String
  /-- Result of `platform.processor()`. -/
  processor : String
  /-- Value of `sys.platform`. -/
  sysPlatform : String
  /-- decoded `sysctl -n machdep.cpu.brand_string` output; `none` models
  `subprocess.check_output` raising `CalledProcessError` -/
  darwinCpuBrand : Option String
  /-- return code of `subprocess.call(['lscpu'])` -/
  lscpuRet : Int
  /-- return code of `subprocess.call(['wmic', 'cpu', 'get', 'name'])` -/
  wmicRet : Int
  /-- Result of `psutil.cpu_count(logical=False)`. -/
  physicalCores : Int
  /-- Result of `psutil.cpu_count(logical=True)`. -/
  totalCores : Int
  /-- Result of `psutil.cpu_percent(percpu=True, interval=1)`, each float rendered. -/
  perCorePct : List String
  /-- Result of `psutil.cpu_percent()`, rendered. -/
  totalCpuPct : String
  /-- Value of `psutil.virtual_memory().total`. -/
  memTotal : Nat
  /-- Value of `psutil.virtual_memory().available`. -/
  memAvailable : Nat
  /-- Value of `psutil.virtual_memory().used`. -/
  memUsed : Nat
  /-- Value of `psutil.virtual_memory().percent`, rendered. -/
  memPct : String
  /-- Value of `psutil.swap_memory().total`. -/
  swapTotal : Nat
  /-- Value of `psutil.swap_memory().free`. -/
  swapFree : Nat
  /-- Value of `psutil.swap_memory().used`. -/
  swapUsed : Nat
  /-- Value of `psutil.swap_memory().percent`, rendered. -/
  swapPct : String
  /-- Result of `platform.platform()`. -/
  platformPlatform : String
  /-- Result of `platform.node()`. -/
  nodeName : String
  /-- Result of `platform.system()`. -/
  system : String
  /-- Result of `' '.join(distro.linux_distribution())`; `none` models the `distro`
  module being absent, i.e. `import_module('distro')` raising
  `ModuleNotFoundError` -/
  distroInfo : Option String
  /-- Value of `platform.uname().version`. -/
  unameVersion : String
  /-- The process environment `os.environ`, as a partial map. -/
  environ : String → Option String
  /-- Value of `sys.executable`. -/
  sysExecutable : String
  /-- Value of `sys.path`. -/
  sysPath : List String

/-- Python `s.startswith(p)` on character lists (structural, so that concrete
report evaluations reduce in the kernel). -/
def listStartsWith : List Char → List Char → Bool
  | _, [] => true
  | [], _ :: _ => false
  | c :: cs, p :: ps => c == p && listStartsWith cs ps

/-- Python `s.startswith(p)`. -/
def pyStartsWith (s p : String) : Bool :=
  listStartsWith s.data p.data

/-- Python `s.strip()`: drop leading and trailing whitespace. -/
def pyStrip (s : String) : String :=
  String.mk (((s.data.dropWhile Char.isWhitespace).reverse.dropWhile Char.isWhitespace).reverse)

/-- Python `s.split(sep)` for a one-character separator, on character
lists: splitting never yields an empty list (the empty string gives
`[[]]`). -/
def splitOnChar (sep : Char) : List Char → List (List Char)
  | [] => [[]]
  | c :: cs =>
    if c == sep then [] :: splitOnChar sep cs
    else
      match splitOnChar sep cs with
      | [] => [[c]]
      | g :: gs => (c :: g) :: gs

/-- Python `s.split('\n')`. -/
def pySplitNL (s : String) : List String :=
  (splitOnChar '\n' s.data).map String.mk

/-- Numeric value of a list of decimal digit characters. -/
def digitsVal (cs : List Char) : Nat :=
  cs.foldl (fun a c => a * 10 + (c.toNat - 48)) 0

/-- Model of Python `int(s)` on ASCII text: strip whitespace, optional
sign, one or more decimal digits; anything else raises `ValueError`
(modelled as `none`). -/
def parsePyInt (s : String) : Option Int :=
  match (pyStrip s).data with
  | [] => none
  | '-' :: rest =>
    if rest ≠ [] ∧ rest.all Char.isDigit then some (-(digitsVal rest : Int)) else none
  | '+' :: rest =>
    if rest ≠ [] ∧ rest.all Char.isDigit then some ((digitsVal rest : Int)) else none
  | cs =>
    if cs.all Char.isDigit then some ((digitsVal cs : Int)) else none

/-- Attempt to match ` +(\d+\.\d+)` right after a `"Driver Version:"`
literal, returning the captured group. -/
def parseDriverTail (cs : List Char) : Option String :=
  let sp := cs.takeWhile (fun c => c = ' ')
  let rest := cs.dropWhile (fun c => c = ' ')
  let d1 := rest.takeWhile Char.isDigit
  let rest1 := rest.dropWhile Char.isDigit
  if sp = [] ∨ d1 = [] then none
  else
    match rest1 with
    | '.' :: rest2 =>
      let d2 := rest2.takeWhile Char.isDigit
      if d2 = [] then none else some (String.mk (d1 ++ '.' :: d2))
    | _ => none

/-- Model of `re.findall(r'Driver Version: +(\d+\.\d+)', smi)` restricted
to its first match (the source uses `match[0]`): scan left to right for
the literal `"Driver Version:"` followed by spaces and a
`digits.digits` group. -/
def findDriverVersion : List Char → Option String
  | [] => none
  | c :: cs =>
    if (c :: cs).take 15 = "Driver Version:".data then
      match parseDriverTail ((c :: cs).drop 15) with
      | some v => some v
      | none => findDriverVersion cs
    else findDriverVersion cs

/-- env.py lines 52-57: `nvidia-smi` counts as available when the probe
ran, exited 0 and produced non-empty output. -/
def haveNvidiaSmi (env : ExtEnv) : Bool :=
  match env.smiRun with
  | some (rc, out) => rc == 0 && out != ""
  | none => false

/-- The decoded `nvidia-smi` output (`smi`, env.py line 64); only ever
used under `haveNvidiaSmi`. -/
def smiText (env : ExtEnv) : String :=
  match env.smiRun with
  | some (_, out) => out
  | none => ""

/-- env.py lines 42-49: the `Pip` entry, with the `ImportError` fallback
text. -/
def pipEntry (env : ExtEnv) : Entry :=
  ⟨"Pip", some (.s ((env.pipVersion).getD "No pip install"))⟩

/-- env.py lines 63-67: the driver-version entry, present only when the
tool is available and the pattern matches. -/
def driverEntries (env : ExtEnv) : List Entry :=
  if haveNvidiaSmi env then
    match findDriverVersion (smiText env).data with
    | some v => [⟨"nvidia driver", some (.s v)⟩]
    | none => []
  else []

/-- env.py lines 69-76: the `torch cuda` entry, and the `torch cudnn`
entry only when CUDA is available. -/
def cudaEntries (env : ExtEnv) : List Entry :=
  ⟨"torch cuda", some (.s (env.cudaVersion ++ " / is " ++
      (if env.cudaAvailable then "available" else "**Not available** ")))⟩ ::
  (if env.cudaAvailable then
    [⟨"torch cudnn", some (.s (intRepr env.cudnnVersion ++ " / is " ++
        (if env.cudnnEnabled then "enabled" else "**Not enabled** ")))⟩]
   else [])

/-- env.py lines 81-93: the per-device memory query. Returns the parsed
list and the lines printed while building. The `try` of the source only
covers `subprocess.run`; the `int(x)` comprehension in the `else` branch
is outside it, so a non-integer line raises an uncaught `ValueError`. -/
def gpuMemQuery (env : ExtEnv) : Except PyError (List Int × List String) :=
  if haveNvidiaSmi env then
    match env.smiQuery with
    | none => .ok ([], ["have nvidia-smi, but failed to query it"])
    | some (rc, out) =>
      if rc == 0 && out != "" then
        match (pySplitNL (pyStrip out)).mapM parsePyInt with
        | some l => .ok (l, [])
        | none => .error .valueError
      else .ok ([], [])
  else .ok ([], [])

/-- env.py lines 96-108: device count and per-device entries. When
`gpu_total_mem` is non-empty, `gpu_total_mem[i]` is indexed for every
torch device `i`, raising `IndexError` when out of range. -/
def deviceSection (env : ExtEnv) (gpuTotalMem : List Int) : Except PyError (List Entry) := do
  let nvidiaGpuCnt := gpuTotalMem.length
  let head : List Entry :=
    if nvidiaGpuCnt ≠ 0 then [⟨"nvidia gpus", some (.n nvidiaGpuCnt)⟩] else []
  if env.torchGpuCnt ≠ 0 then
    let devs ← (List.range env.torchGpuCnt).mapM (fun i =>
      if gpuTotalMem.isEmpty then
        Except.ok (⟨"  - gpu" ++ natToDec i, some (.s (env.deviceName i))⟩ : Entry)
      else
        match gpuTotalMem.get? i with
        | some m =>
          Except.ok (⟨"  - gpu" ++ natToDec i,
            some (.s (intRepr m ++ "MB | " ++ env.deviceName i))⟩ : Entry)
        | none => Except.error PyError.indexError)
    return head ++ ⟨"torch devices", some (.n env.torchGpuCnt)⟩ :: devs
  else if nvidiaGpuCnt ≠ 0 then
    return head ++
      [⟨"Have " ++ natToDec nvidiaGpuCnt ++
        " GPU(s), but torch can't use them (check nvidia driver)", none⟩]
  else
    return head ++ [⟨"No GPUs available", none⟩]

/-- env.py lines 112-118: the platform-specific CPU-name lookup. On
darwin the captured `sysctl` text is stored; on linux and win32 the
*return code* of `subprocess.call` is stored (the tool prints directly
to stdout), so the entry value is an integer, not the CPU model text.
On any other platform no entry is appended. An uncaught
`CalledProcessError` from `check_output` is modelled as an error. -/
def cpuNameSection (env : ExtEnv) : Except PyError (List Entry) :=
  if pyStartsWith env.sysPlatform "darwin" then
    match env.darwinCpuBrand with
    | some brand => .ok [⟨"CPU Name", some (.s brand)⟩]
    | none => .error .calledProcessError
  else if pyStartsWith env.sysPlatform "linux" then
    .ok [⟨"CPU Name", some (.n env.lscpuRet)⟩]
  else if pyStartsWith env.sysPlatform "win32" then
    .ok [⟨"CPU Name", some (.n env.wmicRet)⟩]
  else .ok []

/-- env.py lines 121-127: core counts (entries with values) and the
per-core/total utilization lines (labels only, value `None`). -/
def cpuStatsEntries (env : ExtEnv) : List Entry :=
  [⟨"Physical cores:", some (.n env.physicalCores)⟩,
   ⟨"Total cores:", some (.n env.totalCores)⟩,
   ⟨"CPU Usage Per Core:", none⟩] ++
  (env.perCorePct.enum.map (fun p => ⟨"Core " ++ natToDec p.1 ++ ": " ++ p.2 ++ "%", none⟩)) ++
  [⟨"Total CPU Usage: " ++ env.totalCpuPct ++ "%", none⟩]

/-- env.py lines 129-141: memory and swap sections; each size goes
through `get_size`, whose `None` result (for values `≥ 1024^6`) makes
the entry value absent. -/
def memEntries (env : ExtEnv) : List Entry :=
  [⟨"==Memory Info==", none⟩,
   ⟨"Total:", (get_size env.memTotal).map EVal.s⟩,
   ⟨"Available:", (get_size env.memAvailable).map EVal.s⟩,
   ⟨"Used:", (get_size env.memUsed).map EVal.s⟩,
   ⟨"Percentage: %", some (.f env.memPct)⟩,
   ⟨"=SWAP=", none⟩,
   ⟨"Total:", (get_size env.swapTotal).map EVal.s⟩,
   ⟨"Free:", (get_size env.swapFree).map EVal.s⟩,
   ⟨"Used:", (get_size env.swapUsed).map EVal.s⟩,
   ⟨"Percentage: " ++ env.swapPct ++ "%", none⟩]

/-- env.py lines 148-156: the distro entry on Linux. `import_module`
raises `ModuleNotFoundError` when the `distro` module is absent; the
source's `else` fallback (append to `opt_mods` and a coarse
`platform.uname().version` entry, lines 154-156) is unreachable, since a
successfully imported module object is always truthy. The second
component is the contribution to `opt_mods`. -/
def distroSection (env : ExtEnv) : Except PyError (List Entry × List String) :=
  if env.system = "Linux" then
    match env.distroInfo with
    | some info => .ok ([⟨"distro", some (.s info)⟩], [])
    | none => .error .moduleNotFound
  else .ok ([], [])

/-- The state of `show_env` right before the rendering phase (env.py
line 162): the accumulated `rep`, the lines already printed while
building, and the variables consulted by the rendering code. -/
structure BuildOut where
  rep : List Entry
  prints : List String
  haveSmi : Bool
  smi : String
  torchGpuCnt : Nat
  optMods : List String
deriving DecidableEq

/-- env.py lines 35-160: the report-building phase of `show_env`,
assembling `rep` in source order. Any uncaught exception of a step
aborts the whole build. -/
def buildRep (env : ExtEnv) : Except PyError BuildOut :=
  let swEntries : List Entry :=
    [⟨"=== Software ===", none⟩,
     ⟨"python", some (.s env.pythonVersion)⟩,
     ⟨"torch", some (.s env.torchVersion)⟩,
     pipEntry env]
  match gpuMemQuery env with
  | .error e => .error e
  | .ok (gpuTotalMem, prints1) =>
    match deviceSection env gpuTotalMem with
    | .error e => .error e
    | .ok devSeg =>
      match cpuNameSection env with
      | .error e => .error e
      | .ok cpuSeg =>
        match distroSection env with
        | .error e => .error e
        | .ok (distroSeg, optM) =>
          .ok ⟨swEntries ++ driverEntries env ++ cudaEntries env ++
                 [⟨"\n=== Hardware ===", none⟩] ++ devSeg ++
                 [⟨"machine", some (.s env.machine)⟩,
                  ⟨"processor", some (.s env.processor)⟩,
                  ⟨"==CPU Info==", none⟩] ++ cpuSeg ++
                 cpuStatsEntries env ++ memEntries env ++
                 [⟨"\n=== Environment ===", none⟩,
                  ⟨"platform", some (.s env.platformPlatform)⟩,
                  ⟨"Node Name", some (.s env.nodeName)⟩] ++ distroSeg ++
                 [⟨"conda env", some (.s (get_env env.environ "CONDA_DEFAULT_ENV"))⟩,
                  ⟨"python", some (.s env.sysExecutable)⟩,
                  ⟨"sys.path", some (.s (String.intercalate "\n" env.sysPath))⟩],
               prints1,
               haveNvidiaSmi env,
               smiText env,
               env.torchGpuCnt,
               optM⟩

/-- Left-justified padding of a label to width `w`, as Python
`f"{e[0]:{keylen}}"` produces. -/
def padRight (s : String) (w : Nat) : String :=
  s ++ String.mk (List.replicate (w - s.length) ' ')

/-- env.py line 164: `max([len(e[0]) for e in rep if e[1] is not None])`.
Python's `max` raises `ValueError` on an empty sequence, modelled by
`none`. -/
def reportKeylen (rep : List Entry) : Option Nat :=
  ((rep.filter (fun e => e.value.isSome)).map (fun e => e.label.length)).max?

/-- env.py line 166: one printed line per entry; `print` is called with
two arguments, so a single separating space always follows the padded
label, then `": value"` when the value is present. -/
def entryLine (keylen : Nat) (e : Entry) : String :=
  padRight e.label keylen ++ " " ++
    (match e.value with
     | some v => ": " ++ evalStr v
     | none => "")

/-- The fixed usage note of env.py line 176. -/
def usageNote : String :=
  "Please make sure to include opening/closing ``` when you paste into forums/github to make the reports appear formatted as code sections.\n"

/-- env.py lines 162-181: the rendering phase, one list element per
`print` call, in source order: opening fence, aligned entries, then
(inside the fence) either the raw `nvidia-smi` text (tool available and
flag set) or the no-tool fallback line, then the closing fence, the
usage note, and the `opt_mods` instructions when any were recorded. -/
def renderLines (showNvidiaSmi : Bool) (b : BuildOut) : Except PyError (List String) :=
  match reportKeylen b.rep with
  | none => .error .valueError
  | some keylen =>
    .ok (["\n\n```text"] ++
      b.rep.map (entryLine keylen) ++
      (if b.haveSmi then
        (if showNvidiaSmi then ["\n" ++ b.smi] else [])
       else if b.torchGpuCnt ≠ 0 then ["no nvidia-smi is found"]
       else ["no supported gpus found on this system"]) ++
      ["```\n", usageNote] ++
      (if b.optMods ≠ [] then
        ["Optional package(s) to enhance the diagnostics can be installed with:",
         "pip install " ++ String.intercalate " " b.optMods,
         "Once installed, re-run this utility to get the additional information"]
       else []))

/-- Model of `show_env` (env.py lines 32-181): every line printed to
stdout, in order, or the first uncaught exception. -/
def show_env (showNvidiaSmi : Bool) (env : ExtEnv) : Except PyError (List String) :=
  match buildRep env with
  | .error e => .error e
  | .ok b => (renderLines showNvidiaSmi b).map (fun ls => b.prints ++ ls)

deriving instance DecidableEq for Except

/-- A non-empty string of decimal digit characters. -/
def isDigitStr (s : String) : Prop :=
  s.data ≠ [] ∧ ∀ c ∈ s.data, c.isDigit = true

/-- The output format promised by the spec for the size-scaling helper:
`<number>.<2 digits><unit>B` with the unit drawn from the six supported
unit prefixes. -/
def matchesScaled (s : String) : Prop :=
  ∃ ip fp u, u ∈ sizeUnits ∧ s = ip ++ "." ++ fp ++ u ++ "B" ∧
    isDigitStr ip ∧ fp.length = 2 ∧ (∀ c ∈ fp.data, c.isDigit = true)

/-- A host configuration for concrete runs: a macOS machine without
`nvidia-smi`, no CUDA, no torch devices. -/
def baseEnv : ExtEnv where
  pythonVersion := "3.8.10"
  torchVersion := "1.7.1"
  pipVersion := some "21.0"
  smiRun := none
  smiQuery := none
  cudaAvailable := false
  cudaVersion := "None"
  cudnnVersion := 0
  cudnnEnabled := false
  torchGpuCnt := 0
  deviceName := fun _ => ""
  machine := "x86_64"
  processor := "i386"
  sysPlatform := "darwin"
  darwinCpuBrand := some "Intel(R) Core(TM) i7-8850H CPU @ 2.60GHz\n"
  lscpuRet := 0
  wmicRet := 0
  physicalCores := 4
  totalCores := 8
  perCorePct := ["12.5", "7.0"]
  totalCpuPct := "10.2"
  memTotal := 17179869184
  memAvailable := 8589934592
  memUsed := 4294967296
  memPct := "50.0"
  swapTotal := 1073741824
  swapFree := 536870912
  swapUsed := 536870912
  swapPct := "50.0"
  platformPlatform := "macOS-10.16-x86_64-i386-64bit"
  nodeName := "host"
  system := "Darwin"
  distroInfo := none
  unameVersion := "Darwin Kernel Version 20.6.0"
  environ := fun n => if n = "CONDA_DEFAULT_ENV" then some "base" else none
  sysExecutable := "/usr/local/bin/python3"
  sysPath := ["/usr/local/lib/python3.8", "/home/u"]

/-- Configuration with `nvidia-smi` available, but its per-device memory query prints
`"N/A"` instead of an integer. -/
def envC2 : ExtEnv := { baseEnv with
  smiRun := some (0, "NVIDIA-SMI 396.44  Driver Version: 396.44\n"),
  smiQuery := some (0, "N/A\n") }

/-- Configuration with `nvidia-smi` available; the memory query yields one good line and
one non-integer line. -/
def envC3 : ExtEnv := { baseEnv with
  smiRun := some (0, "NVIDIA-SMI 418.67  Driver Version: 418.67\n"),
  smiQuery := some (0, "8192\nN/A\n") }

/-- A Linux host on which the optional `distro` module is not
installed. -/
def envC4 : ExtEnv := { baseEnv with
  sysPlatform := "linux", system := "Linux", distroInfo := none }

/-- A Linux host with the `distro` module present and `lscpu` exiting
with code 0. -/
def envC5 : ExtEnv := { baseEnv with
  sysPlatform := "linux", system := "Linux", distroInfo := some "Ubuntu 20.04 focal" }

/-- Configuration with `nvidia-smi` available with one device also visible to torch, CUDA
available. -/
def envC6 : ExtEnv := { baseEnv with
  smiRun := some (0, "NVIDIA-SMI 396.44  Driver Version: 396.44\n"),
  smiQuery := some (0, "8192\n"),
  torchGpuCnt := 1,
  deviceName := fun _ => "GeForce GTX 1080",
  cudaAvailable := true,
  cudaVersion := "10.2",
  cudnnVersion := 7605,
  cudnnEnabled := true }

/-- The lines printed by `show_env(show_nvidia_smi=True)` on `envC6`. -/
def c6out : List String :=
  (show_env true envC6).toOption.getD []

/-- A default build state, for extracting concrete `.ok` payloads. -/
def emptyBuild : BuildOut :=
  ⟨[], [], false, "", 0, []⟩

/-- The build state reached on `baseEnv`. -/
def baseBuild : BuildOut :=
  (buildRep baseEnv).toOption.getD emptyBuild

/-- A small process environment: one set variable, one empty one. -/
def c9environ : String → Option String :=
  fun n => if n = "SET_VAR" then some "foo" else if n = "EMPTY_VAR" then some "" else none

/-- The lines rendered from `baseBuild`. -/
def baseRendered : List String :=
  (renderLines false baseBuild).toOption.getD []

theorem digitChar_isDigit (d : Nat) : (digitChar d).isDigit = true := by
  unfold digitChar
  have h : d % 10 < 10 := Nat.mod_lt _ (by norm_num)
  revert h
  generalize d % 10 = k
  intro h
  interval_cases k <;> decide

theorem natToDecAux_digits : ∀ fuel n c, c ∈ natToDecAux fuel n → c.isDigit = true := by
  intro fuel
  induction fuel with
  | zero => intro n c hc; simp [natToDecAux] at hc
  | succ k ih =>
    intro n c hc
    by_cases h : n = 0
    · simp [natToDecAux, h] at hc
    · simp only [natToDecAux, h, if_false, List.mem_append, List.mem_singleton] at hc
      rcases hc with hc | hc
      · exact ih _ _ hc
      · subst hc; exact digitChar_isDigit _

theorem natToDecAux_ne_nil {n fuel : Nat} (hn : n ≠ 0) : natToDecAux (fuel + 1) n ≠ [] := by
  simp [natToDecAux, hn]

theorem natToDec_isDigitStr (n : Nat) : isDigitStr (natToDec n) := by
  unfold natToDec isDigitStr
  by_cases h : n = 0
  · subst h; exact ⟨by decide, by decide⟩
  · simp only [h, if_false]
    exact ⟨natToDecAux_ne_nil h, fun c hc => natToDecAux_digits _ _ _ hc⟩

theorem pad2_length (m : Nat) : (pad2 m).length = 2 := rfl

theorem pad2_digits (m : Nat) (c : Char) (hc : c ∈ (pad2 m).data) : c.isDigit = true := by
  simp only [pad2, List.mem_cons, List.not_mem_nil, or_false] at hc
  rcases hc with rfl | rfl <;> exact digitChar_isDigit _

theorem fmt2_matchesScaled (n d : Nat) (u : String) (hu : u ∈ sizeUnits) :
    matchesScaled (fmt2 n d ++ u ++ "B") :=
  ⟨natToDec (rnd2 n d / 100), pad2 (rnd2 n d % 100), u, hu, rfl,
   natToDec_isDigitStr _, pad2_length _, fun c hc => pad2_digits _ c hc⟩

theorem get_size_go_spec : ∀ (l : List String) (n d : Nat), 0 < d →
    n < 1024 ^ l.length * d → l ≠ [] → (∀ u ∈ l, u ∈ sizeUnits) →
    ∃ s, get_size_go n d l = some s ∧ matchesScaled s := by
  intro l
  induction l with
  | nil => intro n d _ _ hne _; exact absurd rfl hne
  | cons u rest ih =>
    intro n d hd hlt _ hmem
    by_cases h : n < 1024 * d
    · refine ⟨fmt2 n d ++ u ++ "B", ?_, fmt2_matchesScaled n d u (hmem u (by simp))⟩
      simp [get_size_go, h]
    · cases rest with
      | nil =>
        exfalso
        simp only [List.length_cons, List.length_nil, Nat.zero_add, pow_one] at hlt
        omega
      | cons v vs =>
        have key : 1024 ^ ((v :: vs).length + 1) * d = 1024 ^ (v :: vs).length * (d * 1024) := by
          ring
        have hlt' : n < 1024 ^ (v :: vs).length * (d * 1024) := by
          rw [← key]
          simpa [List.length_cons] using hlt
        obtain ⟨s, hs, hm⟩ :=
          ih n (d * 1024) (by positivity) hlt' (by simp)
            (fun w hw => hmem w (List.mem_cons_of_mem _ hw))
        exact ⟨s, by simpa [get_size_go, h] using hs, hm⟩

theorem bitLenAux_le : ∀ fuel n L, n < 2 ^ L → bitLenAux fuel n ≤ L := by
  intro fuel
  induction fuel with
  | zero => intro n L _; simp [bitLenAux]
  | succ k ih =>
    intro n L hn
    by_cases h : n = 0
    · simp [bitLenAux, h]
    · have hL : L ≠ 0 := by
        rintro rfl
        simp only [pow_zero, Nat.lt_one_iff] at hn
        exact h hn
      obtain ⟨M, rfl⟩ := Nat.exists_eq_succ_of_ne_zero hL
      have hn2 : n / 2 < 2 ^ M := by
        rw [Nat.div_lt_iff_lt_mul (by norm_num)]
        rw [← pow_succ]
        exact hn
      have := ih (n / 2) M hn2
      simp only [bitLenAux, h, if_false]
      omega

theorem lt_bitLenAux : ∀ fuel n L, n < fuel → 2 ^ L ≤ n → L < bitLenAux fuel n := by
  intro fuel
  induction fuel with
  | zero => intro n L h _; omega
  | succ k ih =>
    intro n L hfuel hL
    have hpos : 0 < (2:Nat) ^ L := Nat.two_pow_pos L
    have hn0 : n ≠ 0 := by omega
    rw [show bitLenAux (k + 1) n = bitLenAux k (n / 2) + 1 from by
      simp [bitLenAux, hn0]]
    cases L with
    | zero => omega
    | succ M =>
      have hps : (2:Nat) ^ (M + 1) = 2 ^ M * 2 := pow_succ 2 M
      have h1M : 0 < (2:Nat) ^ M := Nat.two_pow_pos M
      have h2M : 2 ^ M ≤ n / 2 := by omega
      have hfuel2 : n / 2 < k := by omega
      have := ih (n / 2) M hfuel2 h2M
      omega

theorem bitLen_le {n L : Nat} (h : n < 2 ^ L) : bitLen n ≤ L :=
  bitLenAux_le _ n L h

theorem lt_bitLen {n L : Nat} (h : 2 ^ L ≤ n) : L < bitLen n :=
  lt_bitLenAux _ n L (Nat.lt_succ_self n) h

theorem roundSig53_lt (b : Nat) (hb : b < 2 ^ 60 - 64) : roundSig53 b < 2 ^ 60 := by
  unfold roundSig53
  split_ifs with h1
  · have h53 : (2:Nat) ^ 53 ≤ 2 ^ 60 := Nat.pow_le_pow_right (by norm_num) (by norm_num)
    omega
  · push_neg at h1
    have hb60 : b < 2 ^ 60 := by
      have h64 : (64:Nat) ≤ 2 ^ 60 := by norm_num
      omega
    have hL1 : 53 < bitLen b := lt_bitLen h1
    have hL2 : bitLen b ≤ 60 := bitLen_le hb60
    obtain ⟨k, hk⟩ : ∃ k, bitLen b - 53 = k := ⟨_, rfl⟩
    rw [hk]
    have hk1 : 1 ≤ k := by omega
    have hk7 : k ≤ 7 := by omega
    have key : roundHalfEvenDiv b (2 ^ k) * 2 ^ k ≤ b + 64 := by
      interval_cases k <;> (unfold roundHalfEvenDiv; split_ifs <;> omega)
    have h60 : (64:Nat) < 2 ^ 60 := by norm_num
    omega

/-- C1 (amended): for every byte count `b < 2 ^ 60 - 64`, `get_size b`
returns a string matching `<number>.<2 digits><unit>B` with the unit
among `"", K, M, G, T, P`. The claim's parenthetical — that a string is
returned for *every* input — fails twice over: at `1024 ^ 6` and above
the loop runs out of units and the function returns Python `None`, and
already in the band `2 ^ 60 - 64 ≤ b ≤ 2 ^ 60 - 1` (below `1024 ^ 6`)
the float division `bytes /= 1024` rounds up to exactly `2 ^ 50`, so
the last `bytes < factor` test fails and `None` is returned (see the
counterexample). -/
theorem get_size_formats_below_peta (b : Nat) (h : b < 2 ^ 60 - 64) :
    ∃ s, get_size b = some s ∧ matchesScaled s := by
  unfold get_size
  split_ifs with h1
  · exact ⟨_, rfl, fmt2_matchesScaled b 1 "" (by decide)⟩
  · have hr := roundSig53_lt b h
    have hbound : roundSig53 b < 1024 ^ (5:Nat) * 1024 := by
      have e : (1024:Nat) ^ (5:Nat) * 1024 = 2 ^ 60 := by norm_num
      rw [e]
      exact hr
    exact get_size_go_spec ["K", "M", "G", "T", "P"] (roundSig53 b) 1024
      (by norm_num) hbound (by decide) (by decide)

/-- C1 witness: the amended theorem applied at the byte count 3. -/
theorem get_size_formats_below_peta_witness :
    3 < 2 ^ 60 - 64 ∧ ∃ s, get_size 3 = some s ∧ matchesScaled s :=
  ⟨by norm_num, get_size_formats_below_peta 3 (by norm_num)⟩

/-- C1 counterexample: `get_size` returns no string at all (Python
`None`) at the byte count `1024 ^ 6`, where the loop exhausts the unit
list, and also at `2 ^ 60 - 1`, which is *below* `1024 ^ 6` but whose
int-to-float division rounds up to exactly `2 ^ 50` so the `P`-stage
test fails — refuting the claim that a string is returned for every
input. -/
theorem get_size_no_string_at_peta :
    get_size (1024 ^ 6) = none ∧ get_size (2 ^ 60 - 1) = none ∧
      (2 ^ 60 - 1 : Nat) < 1024 ^ 6 :=
  ⟨by decide, by decide, by decide⟩

/-- C8: the size-scaling helper reproduces both concrete examples of
the spec: `get_size(1253656) == "1.20MB"` and
`get_size(1253656678) == "1.17GB"`. -/
theorem get_size_spec_examples :
    get_size 1253656 = some "1.20MB" ∧ get_size 1253656678 = some "1.17GB" :=
  ⟨by decide, by decide⟩

theorem string_length_ne_zero {v : String} (h : v ≠ "") : v.length ≠ 0 := by
  cases v with
  | mk data =>
    cases data with
    | nil => exact absurd rfl h
    | cons c cs => simp [String.length]

/-- C9: `get_env` returns the variable's value when it is set and
non-empty, and the literal `"Unknown"` when it is unset or set to the
empty string. -/
theorem get_env_spec (environ : String → Option String) (name v : String) :
    (environ name = some v → v ≠ "" → get_env environ name = v) ∧
    ((environ name = none ∨ environ name = some "") → get_env environ name = "Unknown") := by
  constructor
  · intro h hv
    simp [get_env, h, string_length_ne_zero hv]
  · rintro (h | h) <;> simp [get_env, h]

/-- A concrete process environment for the C9 witness, with a set, an
empty and (implicitly) an unset variable. -/
theorem get_env_spec_witness :
    get_env c9environ "SET_VAR" = "foo" ∧
    get_env c9environ "UNSET_VAR_XYZ" = "Unknown" ∧
    get_env c9environ "EMPTY_VAR" = "Unknown" :=
  ⟨(get_env_spec c9environ "SET_VAR" "foo").1 (by decide) (by decide),
   (get_env_spec c9environ "UNSET_VAR_XYZ" "").2 (Or.inl (by decide)),
   (get_env_spec c9environ "EMPTY_VAR" "").2 (Or.inr (by decide))⟩

/-- C2: the report build is *not* fatal-error free for every collaborator
configuration: with `nvidia-smi` available but its memory query printing
`"N/A"`, the `int(x)` comprehension of env.py line 92 — which sits outside
the `try` that only wraps `subprocess.run` — raises an uncaught
`ValueError` and `show_env` produces no report at all. -/
theorem show_env_crashes_on_unparsable_memory :
    show_env false envC2 = .error .valueError := by decide

/-- C3: with the memory query output `"8192\nN/A\n"` — not one integer
per line — the build does not leave the device-memory list empty and
continue; it aborts with an uncaught `ValueError` from `int(x)`
(env.py line 92). -/
theorem buildRep_crashes_on_nonint_memory_line :
    buildRep envC3 = .error .valueError := by decide

/-- C4: on a Linux host without the `distro` module there is no fallback
and no recorded suggestion: `import_module('distro')` (env.py line 149)
raises an uncaught `ModuleNotFoundError` and the build aborts; the
`else` branch that would append to `opt_mods` and fall back to
`platform.uname().version` is unreachable. -/
theorem show_env_crashes_on_linux_without_distro :
    show_env false envC4 = .error .moduleNotFound := by decide

/-- C5: on a Linux host the CPU-name report entry's value is the
*integer return code* of `subprocess.call(['lscpu'])` (here `0`), not a
human-readable CPU model string — `lscpu` prints directly to stdout and
its text is never captured (env.py line 116). -/
theorem cpu_name_entry_is_return_code_on_linux :
    (buildRep envC5).toOption.map
        (fun b => b.rep.filter (fun e => e.label == "CPU Name")) =
      some [⟨"CPU Name", some (.n 0)⟩] := by decide

/-- C6 counterexample: in the concrete `envC6` run with the flag set,
the raw `nvidia-smi` output appears exactly once in the printed lines,
*before* the closing fence marker — not after it as the claim states —
and the usage note comes after the closing fence, not between the fence
and the raw output. -/
theorem raw_gpu_output_precedes_closing_fence :
    "\nNVIDIA-SMI 396.44  Driver Version: 396.44\n" ∈ c6out ∧
    c6out.count "\nNVIDIA-SMI 396.44  Driver Version: 396.44\n" = 1 ∧
    c6out.indexOf "\nNVIDIA-SMI 396.44  Driver Version: 396.44\n" < c6out.indexOf "```\n" ∧
    c6out.indexOf "```\n" < c6out.indexOf usageNote := by decide

/-- C6 (amended): after the opening fence and the aligned entries, the
raw GPU output (when the tool is available and the flag is set) or the
fallback line (when the tool is unavailable) is printed immediately
after the entries and *before* the closing fence marker; the usage note
follows immediately after the closing fence marker. -/
theorem show_env_render_order (showSmi : Bool) (env : ExtEnv) (ls : List String)
    (h : show_env showSmi env = .ok ls) :
    ∃ b keylen, buildRep env = .ok b ∧ reportKeylen b.rep = some keylen ∧
      ((b.haveSmi = true → showSmi = true → ∃ t,
        ls = b.prints ++ "\n\n```text" :: b.rep.map (entryLine keylen) ++
          ["\n" ++ b.smi, "```\n", usageNote] ++ t) ∧
       (b.haveSmi = false → b.torchGpuCnt ≠ 0 → ∃ t,
        ls = b.prints ++ "\n\n```text" :: b.rep.map (entryLine keylen) ++
          ["no nvidia-smi is found", "```\n", usageNote] ++ t) ∧
       (b.haveSmi = false → b.torchGpuCnt = 0 → ∃ t,
        ls = b.prints ++ "\n\n```text" :: b.rep.map (entryLine keylen) ++
          ["no supported gpus found on this system", "```\n", usageNote] ++ t)) := by
  unfold show_env at h
  cases hb : buildRep env with
  | error e =>
    rw [hb] at h
    simp at h
  | ok b =>
    rw [hb] at h
    dsimp only at h
    unfold renderLines at h
    cases hk : reportKeylen b.rep with
    | none =>
      rw [hk] at h
      simp [Except.map] at h
    | some keylen =>
      rw [hk] at h
      simp only [Except.map, Except.ok.injEq] at h
      subst h
      refine ⟨b, keylen, rfl, hk, ?_, ?_, ?_⟩
      · intro hsmi hflag
        refine ⟨if b.optMods ≠ [] then
          ["Optional package(s) to enhance the diagnostics can be installed with:",
           "pip install " ++ String.intercalate " " b.optMods,
           "Once installed, re-run this utility to get the additional information"]
          else [], ?_⟩
        simp [hsmi, hflag, List.append_assoc]
      · intro hsmi htorch
        refine ⟨if b.optMods ≠ [] then
          ["Optional package(s) to enhance the diagnostics can be installed with:",
           "pip install " ++ String.intercalate " " b.optMods,
           "Once installed, re-run this utility to get the additional information"]
          else [], ?_⟩
        simp [hsmi, htorch, List.append_assoc]
      · intro hsmi htorch
        refine ⟨if b.optMods ≠ [] then
          ["Optional package(s) to enhance the diagnostics can be installed with:",
           "pip install " ++ String.intercalate " " b.optMods,
           "Once installed, re-run this utility to get the additional information"]
          else [], ?_⟩
        simp [hsmi, htorch, List.append_assoc]

/-- C6 witness: the amended order theorem applied to the concrete
`envC6` run with the flag set. -/
theorem show_env_render_order_witness :
    ∃ b keylen, buildRep envC6 = .ok b ∧ reportKeylen b.rep = some keylen ∧
      ((b.haveSmi = true → true = true → ∃ t,
        c6out = b.prints ++ "\n\n```text" :: b.rep.map (entryLine keylen) ++
          ["\n" ++ b.smi, "```\n", usageNote] ++ t) ∧
       (b.haveSmi = false → b.torchGpuCnt ≠ 0 → ∃ t,
        c6out = b.prints ++ "\n\n```text" :: b.rep.map (entryLine keylen) ++
          ["no nvidia-smi is found", "```\n", usageNote] ++ t) ∧
       (b.haveSmi = false → b.torchGpuCnt = 0 → ∃ t,
        c6out = b.prints ++ "\n\n```text" :: b.rep.map (entryLine keylen) ++
          ["no supported gpus found on this system", "```\n", usageNote] ++ t)) :=
  show_env_render_order true envC6 c6out (by decide)

/-- C7: whenever rendering succeeds, the alignment width is exactly the
maximum label length over the entries whose value is present (an upper
bound on all of them, attained by one of them; value-less header lines
are excluded), every valued entry's padded label field has exactly that
width, and each entry's rendered line (built with that width) is among
the printed lines. -/
theorem render_alignment_width (showSmi : Bool) (b : BuildOut) (ls : List String)
    (h : renderLines showSmi b = .ok ls) :
    ∃ keylen, reportKeylen b.rep = some keylen ∧
      (∀ e ∈ b.rep, e.value.isSome = true → e.label.length ≤ keylen) ∧
      (∃ e ∈ b.rep, e.value.isSome = true ∧ e.label.length = keylen) ∧
      (∀ e ∈ b.rep, e.value.isSome = true → (padRight e.label keylen).length = keylen) ∧
      (∀ e ∈ b.rep, entryLine keylen e ∈ ls) := by
  unfold renderLines at h
  cases hk : reportKeylen b.rep with
  | none => rw [hk] at h; simp at h
  | some keylen =>
    rw [hk] at h
    simp only [Except.ok.injEq] at h
    subst h
    have hmax := hk
    unfold reportKeylen at hmax
    have hub : ∀ x ∈ (b.rep.filter (fun e => e.value.isSome)).map (fun e => e.label.length),
        x ≤ keylen :=
      (List.max?_le_iff (fun _ _ _ => max_le_iff) hmax).1 (Nat.le_refl _)
    have hle : ∀ e ∈ b.rep, e.value.isSome = true → e.label.length ≤ keylen := by
      intro e he hv
      exact hub _ (List.mem_map_of_mem _ (List.mem_filter.mpr ⟨he, by simpa using hv⟩))
    refine ⟨keylen, rfl, hle, ?_, ?_, ?_⟩
    · obtain ⟨e, hef, helen⟩ := List.mem_map.mp (List.max?_mem (fun a b => max_choice a b) hmax)
      obtain ⟨he, hv⟩ := List.mem_filter.mp hef
      exact ⟨e, he, by simpa using hv, helen⟩
    · intro e he hv
      have := hle e he hv
      simp only [padRight, String.length_append, String.length_mk, List.length_replicate]
      omega
    · intro e he
      have hm : entryLine keylen e ∈ b.rep.map (entryLine keylen) :=
        List.mem_map_of_mem _ he
      simp only [List.mem_append, List.mem_cons]
      tauto

/-- C7 witness: the alignment theorem applied to the concrete rendering
of the `baseEnv` build. -/
theorem render_alignment_width_witness :
    ∃ keylen, reportKeylen baseBuild.rep = some keylen ∧
      (∀ e ∈ baseBuild.rep, e.value.isSome = true → e.label.length ≤ keylen) ∧
      (∃ e ∈ baseBuild.rep, e.value.isSome = true ∧ e.label.length = keylen) ∧
      (∀ e ∈ baseBuild.rep, e.value.isSome = true →
        (padRight e.label keylen).length = keylen) ∧
      (∀ e ∈ baseBuild.rep, entryLine keylen e ∈ baseRendered) :=
  render_alignment_width false baseBuild baseRendered (by decide)

theorem reportKeylen_isSome {rep : List Entry} (e : Entry) (he : e ∈ rep)
    (hv : e.value.isSome = true) : ∃ m, reportKeylen rep = some m := by
  have hfil : e ∈ rep.filter (fun e => e.value.isSome) :=
    List.mem_filter.mpr ⟨he, by simpa using hv⟩
  have hmem := List.mem_map_of_mem (fun e => e.label.length) hfil
  have hne := List.ne_nil_of_mem hmem
  unfold reportKeylen
  cases hmax : ((rep.filter (fun e => e.value.isSome)).map (fun e => e.label.length)).max? with
  | none => exact absurd (List.max?_eq_none_iff.mp hmax) hne
  | some m => exact ⟨m, rfl⟩

theorem renderLines_ok (showSmi : Bool) (b : BuildOut) {m : Nat}
    (hm : reportKeylen b.rep = some m) : ∃ ls, renderLines showSmi b = .ok ls := by
  unfold renderLines
  rw [hm]
  exact ⟨_, rfl⟩

/-- C10: every successful build hands the renderer a report containing
the unconditionally appended interpreter-version and framework-version
entries, both with present values; hence the width computation — the
maximum over labels of valued entries — is over a non-empty collection,
yields a value, and the rendering phase always succeeds. -/
theorem buildRep_width_never_fails (env : ExtEnv) (b : BuildOut)
    (h : buildRep env = .ok b) :
    (⟨"python", some (.s env.pythonVersion)⟩ : Entry) ∈ b.rep ∧
    (⟨"torch", some (.s env.torchVersion)⟩ : Entry) ∈ b.rep ∧
    ∃ m, reportKeylen b.rep = some m ∧
      ∀ showSmi, ∃ ls, renderLines showSmi b = .ok ls := by
  unfold buildRep at h
  cases h1 : gpuMemQuery env with
  | error e => rw [h1] at h; simp at h
  | ok p =>
    rw [h1] at h
    obtain ⟨gpuTotalMem, prints1⟩ := p
    dsimp only at h
    cases h2 : deviceSection env gpuTotalMem with
    | error e => rw [h2] at h; simp at h
    | ok devSeg =>
      rw [h2] at h
      dsimp only at h
      cases h3 : cpuNameSection env with
      | error e => rw [h3] at h; simp at h
      | ok cpuSeg =>
        rw [h3] at h
        dsimp only at h
        cases h4 : distroSection env with
        | error e => rw [h4] at h; simp at h
        | ok q =>
          rw [h4] at h
          obtain ⟨distroSeg, optM⟩ := q
          dsimp only at h
          simp only [Except.ok.injEq] at h
          have hpy : (⟨"python", some (.s env.pythonVersion)⟩ : Entry) ∈ b.rep := by
            rw [← h]; simp
          have hto : (⟨"torch", some (.s env.torchVersion)⟩ : Entry) ∈ b.rep := by
            rw [← h]; simp
          obtain ⟨m, hm⟩ := reportKeylen_isSome _ hpy rfl
          exact ⟨hpy, hto, m, hm, fun showSmi => renderLines_ok showSmi b hm⟩

/-- C10 witness: the theorem applied to the concrete `baseEnv` build. -/
theorem buildRep_width_never_fails_witness :
    (⟨"python", some (.s baseEnv.pythonVersion)⟩ : Entry) ∈ baseBuild.rep ∧
    (⟨"torch", some (.s baseEnv.torchVersion)⟩ : Entry) ∈ baseBuild.rep ∧
    ∃ m, reportKeylen baseBuild.rep = some m ∧
      ∀ showSmi, ∃ ls, renderLines showSmi baseBuild = .ok ls :=
  buildRep_width_never_fails baseEnv baseBuild (by decide)
